import Mathlib

/-!
Verification of the Open Notebook chat and notebook subsystems.

This file shallowly embeds the relevant parts of the repository:

* `src/open_notebook/graphs/chat.py` — the chat graph node
  `call_model_with_messages`: system-prompt assembly from the thread state,
  model-id resolution, and the event-loop fallback around
  `provision_langchain_model`.
* `src/api/routers/chat.py` — the chat session endpoints (`create_session`,
  `get_session`, `update_session`, `delete_session`, `execute_chat`) and
  `build_context`.
* `src/api/routers/notebooks.py` — `add_source_to_notebook` and
  `remove_source_from_notebook` over the `reference` edge table.
* `src/api/models.py` — `SourceCreate.validate_notebook_fields`.

Python strings are Lean `String`s; Python `None`-able values are `Option`s;
Python dictionaries appearing as JSON-ish payloads are structures with
`Option` fields (a missing key is `none`); insertion-ordered dictionaries
that are iterated are association lists.  Database state is explicit:
records are association lists keyed by record id and graph edges are lists
of pairs.  Fallible endpoints return `Except` with the HTTP status code as
the error.
-/

namespace OpenNotebook

/-- Python truthiness of an optional string: `None` and `""` are falsy. -/
def pytruthy : Option String → Bool
  | none => false
  | some s => s != ""

/-- Python `a or b` on two optional strings: `a` when truthy, else `b`. -/
def pyOr (a b : Option String) : Option String :=
  if pytruthy a then a else b

/-- Python `s.startswith(p)`, computed on the character lists. -/
def strStartsWith (s p : String) : Bool :=
  p.data.isPrefixOf s.data

/-- Substring search on character lists, for Python `pat in s`. -/
def listContainsSub (pat : List Char) : List Char → Bool
  | [] => pat.isEmpty
  | c :: t => pat.isPrefixOf (c :: t) || listContainsSub pat t

/-- Python `pat in s` for strings (substring containment). -/
def strContains (s pat : String) : Bool :=
  listContainsSub pat.data s.data

/-- Association-list lookup keyed by strings (models a by-id record fetch). -/
def lookupStr {α : Type} (l : List (String × α)) (k : String) : Option α :=
  (l.find? (fun p => p.1 == k)).map Prod.snd

/-- Association-list in-place update of an existing key (models saving a
fetched record back under its id). -/
def setKey {α : Type} (l : List (String × α)) (k : String) (v : α) :
    List (String × α) :=
  l.map (fun p => if p.1 == k then (k, v) else p)

/-! ## Chat graph: `src/open_notebook/graphs/chat.py`

The thread state (`ThreadState`, lines 19–27) carries the chat context as a
nested JSON-ish dictionary: a list of source entries and a list of note
entries.  Dictionary keys that `call_model_with_messages` reads with
`.get(...)` or tests with `in` are `Option` fields. -/

/-- An insight entry of a source in the chat context (read at
`chat.py` lines 59–70). -/
structure InsightCtx where
  id : Option String
  insightType : Option String
  content : Option String
  deriving DecidableEq, Repr

/-- A source entry of the chat context (read at `chat.py` lines 41–70). -/
structure SourceCtx where
  id : Option String
  title : Option String
  fullText : Option String
  insights : Option (List InsightCtx)
  deriving DecidableEq, Repr

/-- A note entry of the chat context (read at `chat.py` lines 74–84). -/
structure NoteCtx where
  id : Option String
  title : Option String
  content : Option String
  deriving DecidableEq, Repr

/-- The `context` dictionary of the thread state: optional `sources` and
`notes` keys. -/
structure CtxData where
  sources : Option (List SourceCtx)
  notes : Option (List NoteCtx)
  deriving DecidableEq, Repr

/-- The slice of `ThreadState` read by the prompt assembly and model
resolution in `call_model_with_messages` (the message list, notebook and
context_config fields are not read by the embedded logic). -/
structure ThreadState where
  context : Option CtxData
  modelOverride : Option String
  customSystemPrompt : Option String
  includeCitations : Option Bool
  deriving DecidableEq, Repr

/-- The source entries of the context; `chat.py` guards each loop with
`if context_data and "sources" in context_data`, so a missing context, an
empty (falsy) context dictionary, and a missing `sources` key all
contribute no entries. -/
def ctxSources : Option CtxData → List SourceCtx
  | none => []
  | some cd => cd.sources.getD []

/-- The note entries of the context (same guard shape as `ctxSources`). -/
def ctxNotes : Option CtxData → List NoteCtx
  | none => []
  | some cd => cd.notes.getD []

/-- The header line of a source section (`chat.py` lines 44–51): the ID is
shown only when citations are enabled. -/
def sourceHeader (ic : Bool) (s : SourceCtx) : String :=
  if ic then
    "\n\n## Source: " ++ s.title.getD "Unknown" ++ " [ID: " ++ s.id.getD "unknown" ++ "]\n"
  else
    "\n\n## Source: " ++ s.title.getD "Unknown" ++ "\n"

/-- The full-content block of a source section (`chat.py` lines 54–55),
present exactly when the `full_text` key is present. -/
def fullTextBlock (s : SourceCtx) : String :=
  match s.fullText with
  | some t => "\n### Full Content\n" ++ t ++ "\n"
  | none => ""

/-- One insight block (`chat.py` lines 60–70). -/
def insightBlock (ic : Bool) (i : InsightCtx) : String :=
  if ic then
    "\n### " ++ i.insightType.getD "Insight" ++ " [ID: " ++ i.id.getD "unknown" ++ "]\n"
      ++ i.content.getD "" ++ "\n"
  else
    "\n### " ++ i.insightType.getD "Insight" ++ "\n" ++ i.content.getD "" ++ "\n"

/-- The insight blocks of a source (`chat.py` lines 58–70), appended in
order; a missing `insights` key contributes nothing. -/
def insightsBlock (ic : Bool) (s : SourceCtx) : String :=
  match s.insights with
  | some l => l.foldl (fun acc i => acc ++ insightBlock ic i) ""
  | none => ""

/-- Everything one source appends to `context_str` (`chat.py` lines 41–70):
header, then full text when present, then the insight blocks. -/
def sourceSection (ic : Bool) (s : SourceCtx) : String :=
  sourceHeader ic s ++ fullTextBlock s ++ insightsBlock ic s

/-- Everything one note appends to `context_str` (`chat.py` lines 74–84). -/
def noteSection (ic : Bool) (n : NoteCtx) : String :=
  if ic then
    "\n\n## Note: " ++ n.title.getD "Unknown" ++ " [ID: " ++ n.id.getD "unknown" ++ "]\n"
      ++ n.content.getD "" ++ "\n"
  else
    "\n\n## Note: " ++ n.title.getD "Unknown" ++ "\n" ++ n.content.getD "" ++ "\n"

/-- `context_str` of the custom-prompt branch (`chat.py` lines 36–84):
starts empty, the source loop appends, then the note loop appends. -/
def contextStr (ic : Bool) (ctx : Option CtxData) : String :=
  let s1 := (ctxSources ctx).foldl (fun acc s => acc ++ sourceSection ic s) ""
  (ctxNotes ctx).foldl (fun acc n => acc ++ noteSection ic n) s1

/-- The citing-instructions block (`chat.py` lines 90–100), used when
citations are enabled and the context string is non-empty. -/
def citingInstructions : String :=
  "\n# CITING INSTRUCTIONS\nIf your answer is based on any item in the context above, add references to the documents by including the document ID in brackets like this: [document_id].\n\nExample: According to the regulations [source_insight:abc123], cosmetic labeling must include...\n\nIMPORTANT:\n- Use document IDs exactly as provided in the context\n- IDs have prefixes like \"source:\", \"source_insight:\", \"note:\"\n- Do not make up or modify document IDs\n"

/-- The role-reminder sentence appended directly after the custom prompt
(`chat.py` lines 104–114). -/
def roleReminder : String :=
  "\n\nIMPORTANT: You must follow the role and behavior described above in your current response, regardless of what role you may have taken in previous messages."

/-- The no-citation default branch (`chat.py` lines 120–158): it rebuilds a
context string item by item with exactly the `ic = false` section strings
of the custom branch, then wraps it in a fixed assistant prompt. -/
def defaultNoCitationsPrompt (ctx : Option CtxData) : String :=
  let cs :=
    let s1 := (ctxSources ctx).foldl (fun acc s => acc ++ sourceSection false s) ""
    (ctxNotes ctx).foldl (fun acc n => acc ++ noteSection false n) s1
  if cs != "" then
    "You are a helpful AI assistant. Use the context information below to answer questions accurately.\n\n# Context Information\n"
      ++ cs
      ++ "\n\nPlease provide your answers based on the context provided. Respond naturally without including document references or IDs."
  else
    "You are a helpful AI assistant."

/-- The system prompt computed by `call_model_with_messages`
(`chat.py` lines 31–158).  `prompterRender` stands for the output of the
external `Prompter(prompt_template="chat/system").render(data=state)` call
used by the with-citations default branch (third-party code). -/
def callModelSystemPrompt (prompterRender : String) (st : ThreadState) : String :=
  let ic := st.includeCitations.getD true
  if pytruthy st.customSystemPrompt then
    let cp := st.customSystemPrompt.getD ""
    let cs := contextStr ic st.context
    if cs != "" then
      let ci := if ic then citingInstructions else ""
      cp ++ roleReminder ++ "\n\n# Context Information\n" ++ cs ++ "\n" ++ ci
    else
      cp ++ roleReminder
  else
    if ic then prompterRender else defaultNoCitationsPrompt st.context

/-- The model id computed inside the graph node (`chat.py` lines 160–162):
`config["configurable"]["model_id"] or state["model_override"]`. -/
def graphModelId (configModelId stateOverride : Option String) : Option String :=
  pyOr configModelId stateOverride

/-- The argument tuple of a `provision_langchain_model` call. -/
structure ProvisionCall where
  payload : String
  modelId : Option String
  purpose : String
  maxTokens : Nat
  deriving DecidableEq, Repr

/-- The provisioning call made by `run_in_new_loop` (`chat.py`
lines 165–177), i.e. the branch taken when an event loop is already
running: `provision_langchain_model(str(payload), model_id, "chat",
max_tokens=8192)`. -/
def provisionCallRunningLoop (payload : String) (modelId : Option String) :
    ProvisionCall :=
  { payload := payload, modelId := modelId, purpose := "chat", maxTokens := 8192 }

/-- The provisioning call made in the `except RuntimeError` branch
(`chat.py` lines 188–197), i.e. when no event loop is running:
`asyncio.run(provision_langchain_model(str(payload), model_id, "chat",
max_tokens=8192))`. -/
def provisionCallNoLoop (payload : String) (modelId : Option String) :
    ProvisionCall :=
  { payload := payload, modelId := modelId, purpose := "chat", maxTokens := 8192 }

/-! ## Chat router: `src/api/routers/chat.py` -/

/-- Session-id normalization performed before database lookups in the chat
session endpoints (`chat.py` lines 199–203, 232–236, 281–285, 302–306,
340–344, 377–381): prepend the `chat_session:` table prefix when absent. -/
def normalizeSessionId (sid : String) : String :=
  if strStartsWith sid "chat_session:" then sid else "chat_session:" ++ sid

/-- A stored `ChatSession` record (the fields the endpoints read and
write; timestamps are database-managed and elided). -/
structure SessionRec where
  title : Option String
  modelOverride : Option String
  deriving DecidableEq, Repr

/-- The persistent state the chat session endpoints touch: notebook ids,
session records keyed by full record id, `refers_to` edges
(session id, notebook id), and the LangGraph checkpoint store keyed by
thread id (a message list per thread).  Messages are represented by their
content strings.  `nextId` drives fresh record ids.

Modelled from the spec: the generic object-relational helpers
(`ChatSession.save`, `ChatSession.get`, `ChatSession.delete`,
`relate_to_notebook`) and the SurrealDB/LangGraph stores live outside
`src/`; they are modelled as this explicit record store with standard
create/read/update/delete semantics. -/
structure ChatDb where
  notebooks : List String
  sessions : List (String × SessionRec)
  refersTo : List (String × String)
  checkpoints : List (String × List String)
  nextId : Nat
  deriving DecidableEq, Repr

/-- Response shape shared by the session endpoints (the timestamp and
message-count bookkeeping fields that no claim mentions are elided). -/
structure SessionResponse where
  id : String
  title : String
  notebookId : Option String
  modelOverride : Option String
  deriving DecidableEq, Repr

/-- Response of `get_session`: session fields plus the message list
recovered from the checkpointed graph state. -/
structure SessionWithMessages where
  id : String
  title : String
  notebookId : Option String
  messageCount : Nat
  messages : List String
  modelOverride : Option String
  deriving DecidableEq, Repr

/-- `create_session` (`chat.py` lines 141–182).  `loopTime` stands for the
`asyncio.get_event_loop().time()` value used in the default title.
`Notebook.get` on a missing notebook raises `NotFoundError`, which the
endpoint maps to HTTP 404 before any session is created.

Modelled from the spec: `Notebook.get` is domain code outside `src/`;
consistent with the router's `except NotFoundError` handler it is modelled
as failing on a missing record.  Saving the new session appends a fresh
record, and `relate_to_notebook` appends a `refers_to` edge. -/
def createSession (notebookId : String) (title modelOverride : Option String)
    (db : ChatDb) (loopTime : Nat) : Except Nat SessionResponse × ChatDb :=
  if db.notebooks.contains notebookId then
    let titleVal :=
      if pytruthy title then title.getD ""
      else "Chat Session " ++ toString loopTime
    let sid := "chat_session:" ++ toString db.nextId
    let srec : SessionRec := { title := some titleVal, modelOverride := modelOverride }
    let db2 : ChatDb :=
      { db with
        sessions := db.sessions ++ [(sid, srec)]
        refersTo := db.refersTo ++ [(sid, notebookId)]
        nextId := db.nextId + 1 }
    (Except.ok
      { id := sid, title := titleVal, notebookId := some notebookId,
        modelOverride := modelOverride }, db2)
  else
    (Except.error 404, db)

/-- `get_session` (`chat.py` lines 188–260).  The database lookups use the
normalized `full_session_id`, but the LangGraph state is read with
`thread_id = session_id` exactly as passed (line 210). -/
def getSession (sid : String) (db : ChatDb) : Except Nat SessionWithMessages :=
  let full := normalizeSessionId sid
  match lookupStr db.sessions full with
  | none => Except.error 404
  | some s =>
    let msgs := (lookupStr db.checkpoints sid).getD []
    let nb := lookupStr db.refersTo full
    Except.ok
      { id := full, title := s.title.getD "Untitled Session", notebookId := nb,
        messageCount := msgs.length, messages := msgs,
        modelOverride := s.modelOverride }

/-- `update_session` (`chat.py` lines 269–326).  The request fields use
`exclude_unset` semantics: `none` means the field was absent, `some v`
means it was set to `v` (possibly null). -/
def updateSession (sid : String) (newTitle newOverride : Option (Option String))
    (db : ChatDb) : Except Nat SessionResponse × ChatDb :=
  let full := normalizeSessionId sid
  match lookupStr db.sessions full with
  | none => (Except.error 404, db)
  | some s =>
    let s2 : SessionRec :=
      { title := match newTitle with | some t => t | none => s.title
        modelOverride := match newOverride with | some m => m | none => s.modelOverride }
    let db2 : ChatDb := { db with sessions := setKey db.sessions full s2 }
    let nb := lookupStr db2.refersTo full
    (Except.ok
      { id := full, title := s2.title.getD "", notebookId := nb,
        modelOverride := s2.modelOverride }, db2)

/-- `delete_session` (`chat.py` lines 330–356): look the session up under
the normalized id and delete it (the record and its `refers_to` edges). -/
def deleteSession (sid : String) (db : ChatDb) : Except Nat ChatDb :=
  let full := normalizeSessionId sid
  match lookupStr db.sessions full with
  | none => Except.error 404
  | some _ =>
    Except.ok
      { db with
        sessions := db.sessions.filter (fun p => !(p.1 == full))
        refersTo := db.refersTo.filter (fun p => !(p.1 == full)) }

/-- The session id `execute_chat` uses for the `ChatSession.get` database
lookup (`chat.py` lines 377–382): the normalized id. -/
def executeChatLookupId (sid : String) : String :=
  normalizeSessionId sid

/-- The thread id `execute_chat` passes to the chat graph, both when
reading the current state (line 441) and when invoking the graph
(line 477): the raw `request.session_id`, not the normalized id. -/
def executeChatThreadId (sid : String) : String :=
  sid

/-- The session id echoed in the `execute_chat` response (line 528): the
raw `request.session_id`. -/
def executeChatResponseSessionId (sid : String) : String :=
  sid

/-- The model override resolved by `execute_chat` (`chat.py` lines
389–394): the request-level override when it `is not None`, otherwise the
session record's stored override. -/
def resolveModelOverride (requestOverride sessionOverride : Option String) :
    Option String :=
  match requestOverride with
  | some m => some m
  | none => sessionOverride

/-- The model id that reaches `provision_langchain_model` for an
`execute_chat` request: `execute_chat` passes the resolved override both
as `configurable.model_id` (line 478) and as `state.model_override`
(line 451), and the graph node combines the two with Python `or`
(`graphs/chat.py` lines 160–162). -/
def executeChatModelId (requestOverride sessionOverride : Option String) :
    Option String :=
  let m := resolveModelOverride requestOverride sessionOverride
  graphModelId m m

/-- The model-selection chain as the claim states it: request override
when present, otherwise session override, otherwise the model associated
with the notebook's active prompt, otherwise the notebook's default
model.  (Second definition following the claim's words, for comparison
with the code's `resolveModelOverride`/`executeChatModelId`.) -/
def claimModelChain (requestOverride sessionOverride activePromptModel
    notebookDefaultModel : Option String) : Option String :=
  match requestOverride with
  | some m => some m
  | none =>
    match sessionOverride with
    | some m => some m
    | none =>
      match activePromptModel with
      | some m => some m
      | none => notebookDefaultModel

/-- Environment of the custom-system-prompt resolution in `execute_chat`
(`chat.py` lines 403–434), for a session whose notebook resolved.
`promptTable` models `SystemPrompt.get`: `some content` when the prompt
loads, `none` when the lookup raises.  `activePromptContent` models the
result of `notebook.get_active_prompt()`: `some content` when a prompt
object is returned, `none` otherwise.

Modelled from the spec: `SystemPrompt.get` and
`Notebook.get_active_prompt` are domain code outside `src/`; they are
modelled as lookups that either return the stored prompt content or
fail. -/
structure PromptEnv where
  promptTable : String → Option String
  activePromptId : Option String
  activePromptContent : Option String
  legacyCustomPrompt : Option String

/-- The custom system prompt `execute_chat` computes (`chat.py` lines
405–434).  Each tier only fires while the accumulated value is still
falsy (`if not custom_system_prompt`), i.e. `None` or the empty string. -/
def resolveCustomSystemPrompt (reqPromptId : Option String) (env : PromptEnv) :
    Option String :=
  let c1 : Option String :=
    if pytruthy reqPromptId then
      match env.promptTable (reqPromptId.getD "") with
      | some content => some content
      | none => none
    else none
  let c2 : Option String :=
    if !(pytruthy c1) && pytruthy env.activePromptId then
      match env.activePromptContent with
      | some content => some content
      | none => c1
    else c1
  if !(pytruthy c2) && pytruthy env.legacyCustomPrompt then
    env.legacyCustomPrompt
  else c2

/-- The prompt-resolution chain as the claim states it: the requested
prompt's content whenever that prompt loads successfully, otherwise the
active prompt's content whenever `active_prompt_id` is set and resolves,
otherwise the legacy field when non-empty, otherwise no custom prompt.
(Second definition following the claim's words, for comparison with
`resolveCustomSystemPrompt`.) -/
def claimPromptChain (reqPromptId : Option String) (env : PromptEnv) :
    Option String :=
  match (if pytruthy reqPromptId then env.promptTable (reqPromptId.getD "") else none) with
  | some content => some content
  | none =>
    match (if pytruthy env.activePromptId then env.activePromptContent else none) with
    | some content => some content
    | none =>
      if pytruthy env.legacyCustomPrompt then env.legacyCustomPrompt else none

/-- Normalization of an optional prompt to its downstream effect: the
graph node's `if custom_prompt:` treats `None` and `""` alike, so a falsy
resolved prompt means the default chat template. -/
def pyEffectivePrompt (o : Option String) : Option String :=
  if pytruthy o then o else none

/-- The amended prompt-resolution chain: the first tier whose content is
non-empty wins; a tier that loads but yields empty content falls through
to the next one. -/
def amendedPromptChain (reqPromptId : Option String) (env : PromptEnv) :
    Option String :=
  match (if pytruthy reqPromptId then pyEffectivePrompt (env.promptTable (reqPromptId.getD "")) else none) with
  | some content => some content
  | none =>
    match (if pytruthy env.activePromptId then pyEffectivePrompt env.activePromptContent else none) with
    | some content => some content
    | none =>
      if pytruthy env.legacyCustomPrompt then env.legacyCustomPrompt else none

/-! ## `build_context` (`src/api/routers/chat.py` lines 537–650) -/

/-- The detail level a context entry is fetched at
(`get_context(context_size="short")` vs `context_size="long"`). -/
inductive CtxSize where
  | short
  | long
  deriving DecidableEq, Repr

/-- The stores `build_context` reads.  `sourceIds`/`noteIds` are the full
record ids for which `Source.get`/`Note.get` succeeds;
`notebookSources`/`notebookNotes` are the results of
`notebook.get_sources()` and `notebook.get_notes()` in order.

Modelled from the spec: the domain getters live outside `src/` and are
modelled as membership in these id lists. -/
structure ContextDb where
  sourceIds : List String
  noteIds : List String
  notebookSources : List String
  notebookNotes : List String
  deriving DecidableEq, Repr

/-- Source-id normalization in `build_context` (lines 566–570). -/
def normalizeSourceId (sid : String) : String :=
  if strStartsWith sid "source:" then sid else "source:" ++ sid

/-- Note-id normalization in `build_context` (lines 595–598). -/
def normalizeNoteId (nid : String) : String :=
  if strStartsWith nid "note:" then nid else "note:" ++ nid

/-- What one configured source entry contributes (`build_context` lines
560–587): skipped when its status contains `"not in"`, skipped when the
source fails to load, short context when the status contains
`"insights"`, long context when it contains `"full content"` instead,
nothing otherwise. -/
def processSource (db : ContextDb) (entry : String × String) :
    Option (String × CtxSize) :=
  if strContains entry.2 "not in" then none
  else
    let fullId := normalizeSourceId entry.1
    if db.sourceIds.contains fullId then
      if strContains entry.2 "insights" then some (fullId, CtxSize.short)
      else if strContains entry.2 "full content" then some (fullId, CtxSize.long)
      else none
    else none

/-- What one configured note entry contributes (`build_context` lines
590–609): skipped when its status contains `"not in"` or the note fails
to load, long context when the status contains `"full content"`, nothing
otherwise. -/
def processNote (db : ContextDb) (entry : String × String) :
    Option (String × CtxSize) :=
  if strContains entry.2 "not in" then none
  else
    let fullId := normalizeNoteId entry.1
    if db.noteIds.contains fullId then
      if strContains entry.2 "full content" then some (fullId, CtxSize.long)
      else none
    else none

/-- One iteration of a `build_context` loop: append the entry when the
body produced one, otherwise leave the accumulator unchanged (a
`continue`). -/
def appendIfSome {α β : Type} (g : α → Option β) (acc : List β) (e : α) : List β :=
  match g e with
  | some r => acc ++ [r]
  | none => acc

/-- A context configuration carried by a `build_context` request: the
`sources` and `notes` dictionaries as insertion-ordered association
lists from raw id to status string. -/
structure ContextConfigL where
  sources : List (String × String)
  notes : List (String × String)
  deriving DecidableEq, Repr

/-- The context `build_context` assembles after the notebook resolved
(lines 552–630), as the lists of included (full id, detail level) pairs
in order.  `cfg = none` is a falsy `context_config` (absent or the empty
dictionary), which falls back to including every source and note of the
notebook with short context. -/
def buildContext (cfg : Option ContextConfigL) (db : ContextDb) :
    List (String × CtxSize) × List (String × CtxSize) :=
  match cfg with
  | some c =>
    (c.sources.foldl (appendIfSome (processSource db)) [],
     c.notes.foldl (appendIfSome (processNote db)) [])
  | none =>
    (db.notebookSources.map (fun s => (s, CtxSize.short)),
     db.notebookNotes.map (fun n => (n, CtxSize.short)))

/-- A configured source entry's contribution as the claim states it:
nothing when the status contains `"not in"`, short context when it
contains `"insights"`, long context when it contains `"full content"`
and not `"insights"` — provided the source exists.  (Second definition
following the claim's words, for comparison with `processSource`.) -/
def claimSourceEntry (db : ContextDb) (entry : String × String) :
    Option (String × CtxSize) :=
  if strContains entry.2 "not in" then none
  else if strContains entry.2 "insights" then
    if db.sourceIds.contains (normalizeSourceId entry.1) then
      some (normalizeSourceId entry.1, CtxSize.short)
    else none
  else if strContains entry.2 "full content" then
    if db.sourceIds.contains (normalizeSourceId entry.1) then
      some (normalizeSourceId entry.1, CtxSize.long)
    else none
  else none

/-- A configured note entry's contribution as the claim states it:
included only when the status contains `"full content"` and not
`"not in"`, with long context — provided the note exists. -/
def claimNoteEntry (db : ContextDb) (entry : String × String) :
    Option (String × CtxSize) :=
  if strContains entry.2 "not in" then none
  else if strContains entry.2 "full content" then
    if db.noteIds.contains (normalizeNoteId entry.1) then
      some (normalizeNoteId entry.1, CtxSize.long)
    else none
  else none

/-! ## Notebook router: `src/api/routers/notebooks.py` -/

/-- A `reference` edge record with its SurrealDB `in` and `out` fields.
`RELATE $source_id->reference->$notebook_id` creates an edge with
`in = source id` and `out = notebook id`. -/
structure RefEdge where
  inId : String
  outId : String
  deriving DecidableEq, Repr

/-- The state the source-linking endpoints touch: notebook ids, source
ids, and the `reference` edge table (a multiset, kept as a list).

Modelled from the spec: `Notebook.get`/`Source.get` and the SurrealDB
`reference` table live outside `src/`; record existence is membership in
the id lists and the edge queries act on the explicit edge list. -/
structure NotebookDb where
  notebooks : List String
  sources : List String
  references : List RefEdge
  deriving DecidableEq, Repr

/-- `add_source_to_notebook` (`notebooks.py` lines 214–262).  After the
existence checks it runs
`SELECT * FROM reference WHERE out = $source_id AND in = $notebook_id`
and only when that returns nothing does it run
`RELATE $source_id->reference->$notebook_id` (which creates an edge with
`in = source id`, `out = notebook id`). -/
def addSourceToNotebook (notebookId sourceId : String) (db : NotebookDb) :
    Except Nat NotebookDb :=
  if db.notebooks.contains notebookId then
    if db.sources.contains sourceId then
      if (db.references.filter
            (fun e => e.outId == sourceId && e.inId == notebookId)).isEmpty then
        Except.ok { db with references := db.references ++ [⟨sourceId, notebookId⟩] }
      else
        Except.ok db
    else Except.error 404
  else Except.error 404

/-- `remove_source_from_notebook` (`notebooks.py` lines 266–299): after
the notebook existence check it runs
`DELETE FROM reference WHERE out = $notebook_id AND in = $source_id`. -/
def removeSourceFromNotebook (notebookId sourceId : String) (db : NotebookDb) :
    Except Nat NotebookDb :=
  if db.notebooks.contains notebookId then
    Except.ok
      { db with references :=
          db.references.filter (fun e => !(e.outId == notebookId && e.inId == sourceId)) }
  else Except.error 404

/-- The number of `reference` edges linking a source to a notebook in the
direction the code creates and counts them (`in = source`,
`out = notebook`; compare the `count(<-reference.in)` source counts in
the notebook queries). -/
def edgesLinking (sourceId notebookId : String) (db : NotebookDb) : Nat :=
  (db.references.filter (fun e => e.inId == sourceId && e.outId == notebookId)).length

/-! ## `SourceCreate.validate_notebook_fields` (`src/api/models.py` lines 306–323) -/

/-- The validation error message raised when both notebook fields are
given (quotes elided). -/
def dualNotebookFieldsError : String :=
  "Cannot specify both notebook_id and notebooks. Use notebooks for multi-notebook support."

/-- `validate_notebook_fields`: rejects a request carrying both
`notebook_id` and `notebooks`; normalizes a legacy `notebook_id` to a
one-element `notebooks` list; defaults `notebooks` to the empty list.
Returns the normalized (`notebook_id`, `notebooks`) pair. -/
def validateNotebookFields (notebookId : Option String)
    (notebooks : Option (List String)) :
    Except String (Option String × List String) :=
  match notebookId, notebooks with
  | some _, some _ => Except.error dualNotebookFieldsError
  | some nid, none => Except.ok (some nid, [nid])
  | none, some l => Except.ok (none, l)
  | none, none => Except.ok (none, [])

/-! ## Helper lemmas -/

/-- Folding string append over a list equals the initial accumulator
followed by the joined per-item strings. -/
lemma strFoldl_append (l : List String) :
    ∀ a b : String,
      List.foldl (fun r s => r ++ s) (a ++ b) l
        = a ++ List.foldl (fun r s => r ++ s) b l := by
  induction l with
  | nil => intro a b; rfl
  | cons x xs ih =>
    intro a b
    simp only [List.foldl]
    rw [String.append_assoc, ih]

lemma join_cons (s : String) (l : List String) :
    String.join (s :: l) = s ++ String.join l := by
  show List.foldl (fun r t => r ++ t) ("" ++ s) l = s ++ List.foldl (fun r t => r ++ t) "" l
  rw [String.empty_append]
  conv_lhs => rw [← String.append_empty s]
  rw [strFoldl_append]

lemma foldl_section {α : Type} (f : α → String) (l : List α) :
    ∀ init : String,
      l.foldl (fun acc x => acc ++ f x) init = init ++ String.join (l.map f) := by
  induction l with
  | nil =>
    intro init
    rw [List.foldl_nil, List.map_nil]
    show init = init ++ ""
    rw [String.append_empty]
  | cons x xs ih =>
    intro init
    rw [List.foldl_cons, List.map_cons, ih, join_cons, String.append_assoc]

lemma append_ne_empty_left (a b : String) (h : a ≠ "") : a ++ b ≠ "" := by
  intro he
  apply h
  have hd : (a ++ b).data = [] := by rw [he]
  rw [String.data_append] at hd
  have ha : a.data = [] := (List.append_eq_nil.mp hd).1
  cases a
  cases b
  simp_all

/-- Accumulating a loop body that appends at most one element equals
`filterMap` over the list, prefixed by the accumulator. -/
lemma foldl_filterMap {α β : Type} (g : α → Option β) (l : List α) :
    ∀ acc : List β, l.foldl (appendIfSome g) acc = acc ++ l.filterMap g := by
  induction l with
  | nil => intro acc; simp
  | cons x xs ih =>
    intro acc
    rw [List.foldl_cons, List.filterMap_cons]
    cases hx : g x with
    | none => rw [show appendIfSome g acc x = acc from by simp [appendIfSome, hx], ih]
    | some r =>
      rw [show appendIfSome g acc x = acc ++ [r] from by simp [appendIfSome, hx], ih,
        List.append_assoc, List.singleton_append]

lemma lookupStr_append_self {α : Type} (l : List (String × α)) (k : String) (v : α) :
    lookupStr (l ++ [(k, v)]) k ≠ none := by
  unfold lookupStr
  induction l with
  | nil => simp [List.find?]
  | cons x xs ih =>
    cases hx : (x.1 == k) <;> simp only [List.cons_append, List.find?, hx] <;> simp_all

/-- `strStartsWith` holds of any string extended on the right of the
sought pattern. -/
lemma strStartsWith_append (p s : String) : strStartsWith (p ++ s) p = true := by
  unfold strStartsWith
  rw [String.data_append]
  exact List.isPrefixOf_iff_prefix.mpr (List.prefix_append _ _)

lemma normalizeSessionId_idem (sid : String) :
    normalizeSessionId (normalizeSessionId sid) = normalizeSessionId sid := by
  unfold normalizeSessionId
  by_cases h : strStartsWith sid "chat_session:" = true
  · simp [h]
  · simp [h, strStartsWith_append]

/-! ## C4 — the two event-loop branches provision identically -/

/-- C4: In `call_model_with_messages`, both branches of the
nested-event-loop fallback provision the model identically: whether or
not an event loop is already running, `provision_langchain_model` is
invoked with the same arguments (the stringified message payload, the
resolved model id, purpose `"chat"`, `max_tokens=8192`), so the two
execution paths perform the same provisioning call. -/
theorem provision_branches_equivalent (payload : String) (modelId : Option String) :
    provisionCallRunningLoop payload modelId = provisionCallNoLoop payload modelId
      ∧ provisionCallNoLoop payload modelId
          = { payload := payload, modelId := modelId, purpose := "chat", maxTokens := 8192 } :=
  ⟨rfl, rfl⟩

/-! ## C6 — source creation notebook-field validation -/

/-- C6: A source may belong to zero or more notebooks: a creation request
with neither `notebook_id` nor `notebooks` is accepted and normalized to
an empty notebook list, a request with only the legacy `notebook_id` is
normalized to a one-element `notebooks` list, and a request specifying
both fields is rejected with a validation error. -/
theorem source_create_notebook_validation :
    validateNotebookFields none none = Except.ok (none, [])
      ∧ (∀ nid : String, validateNotebookFields (some nid) none = Except.ok (some nid, [nid]))
      ∧ (∀ (nid : String) (l : List String),
          validateNotebookFields (some nid) (some l) = Except.error dualNotebookFieldsError) :=
  ⟨rfl, fun _ => rfl, fun _ _ => rfl⟩

/-! ## C1 — the model-override chain -/

/-- C1 counterexample: with no request-level and no session-level
override, the model id that reaches `provision_langchain_model` is `none`
even when (per the claim) a model is associated with the notebook's
active prompt and a notebook default model exists, whereas the claimed
four-tier chain would select the active prompt's model.  (No model field
exists on `SystemPrompt` or `Notebook` anywhere in the API.) -/
theorem model_chain_counterexample :
    claimModelChain none none (some "model:prompt-model") (some "model:notebook-default")
        = some "model:prompt-model"
      ∧ executeChatModelId none none = none
      ∧ executeChatModelId none none
          ≠ claimModelChain none none (some "model:prompt-model") (some "model:notebook-default") := by
  refine ⟨rfl, rfl, ?_⟩
  decide

/-- C1 (amended): the model id reaching `provision_langchain_model` for a
chat execution is the request-level override when present, otherwise the
session's stored override (and `none` when neither is set, leaving the
choice to the provisioner); both event-loop branches pass it
unchanged. -/
theorem model_chain_request_session (req sess : Option String) (payload : String) :
    executeChatModelId req sess = (match req with | some m => some m | none => sess)
      ∧ provisionCallRunningLoop payload (executeChatModelId req sess)
          = provisionCallNoLoop payload (executeChatModelId req sess) := by
  refine ⟨?_, rfl⟩
  cases req <;> simp [executeChatModelId, graphModelId, pyOr, resolveModelOverride]

/-! ## C9 — add_source_to_notebook is not idempotent -/

/-- Edge store before any linking: one notebook, one source, no edges. -/
def c9Db0 : NotebookDb := ⟨["notebook:n1"], ["source:s1"], []⟩

/-- Edge store after the first `add_source_to_notebook` call. -/
def c9Db1 : NotebookDb :=
  ⟨["notebook:n1"], ["source:s1"], [⟨"source:s1", "notebook:n1"⟩]⟩

/-- Edge store after the second, supposedly idempotent, call. -/
def c9Db2 : NotebookDb :=
  ⟨["notebook:n1"], ["source:s1"],
   [⟨"source:s1", "notebook:n1"⟩, ⟨"source:s1", "notebook:n1"⟩]⟩

/-- C9: the existence check of `add_source_to_notebook` queries
`WHERE out = $source_id AND in = $notebook_id`, the mirror image of the
edge `RELATE $source_id->reference->$notebook_id` creates, so it never
matches and a second call for the same pair creates a duplicate edge:
two calls starting from no edges leave two reference edges. -/
theorem add_source_not_idempotent :
    addSourceToNotebook "notebook:n1" "source:s1" c9Db0 = Except.ok c9Db1
      ∧ addSourceToNotebook "notebook:n1" "source:s1" c9Db1 = Except.ok c9Db2
      ∧ edgesLinking "source:s1" "notebook:n1" c9Db2 = 2 :=
  ⟨rfl, rfl, rfl⟩

/-! ## C5 — add then remove restores the no-edge state -/

lemma filter_filter_no_edges (src nb : String) (refs : List RefEdge) :
    ((refs.filter (fun e => !(e.outId == nb && e.inId == src))).filter
        (fun e => e.inId == src && e.outId == nb)) = [] := by
  rw [List.filter_eq_nil_iff]
  intro e he
  have h1 := (List.mem_filter.mp he).2
  simp only [Bool.not_eq_true', Bool.and_eq_false_iff, beq_eq_false_iff_ne] at h1
  simp only [Bool.and_eq_true, beq_iff_eq]
  rintro ⟨hi, ho⟩
  rcases h1 with h | h <;> exact h (by simp [hi, ho])

lemma addSource_ok_new (nb src : String) (db : NotebookDb)
    (hnb : db.notebooks.contains nb = true) (hsrc : db.sources.contains src = true)
    (h : (db.references.filter (fun e => e.outId == src && e.inId == nb)).isEmpty = true) :
    addSourceToNotebook nb src db
      = Except.ok { db with references := db.references ++ [RefEdge.mk src nb] } := by
  unfold addSourceToNotebook
  rw [if_pos hnb, if_pos hsrc, if_pos h]

lemma addSource_ok_dup (nb src : String) (db : NotebookDb)
    (hnb : db.notebooks.contains nb = true) (hsrc : db.sources.contains src = true)
    (h : ¬(db.references.filter (fun e => e.outId == src && e.inId == nb)).isEmpty = true) :
    addSourceToNotebook nb src db = Except.ok db := by
  unfold addSourceToNotebook
  rw [if_pos hnb, if_pos hsrc, if_neg h]

lemma removeSource_ok (nb src : String) (db : NotebookDb)
    (hnb : db.notebooks.contains nb = true) :
    removeSourceFromNotebook nb src db
      = Except.ok { db with references :=
          db.references.filter (fun e => !(e.outId == nb && e.inId == src)) } := by
  unfold removeSourceFromNotebook
  rw [if_pos hnb]

/-- C5: for an existing notebook and source, `add_source_to_notebook`
followed by `remove_source_from_notebook` for the same pair succeeds and
leaves no `reference` edge linking the source to the notebook, regardless
of how many such edges existed before. -/
theorem add_remove_source_roundtrip (db : NotebookDb) (nb src : String)
    (hnb : db.notebooks.contains nb = true) (hsrc : db.sources.contains src = true) :
    ∃ db1 db2,
      addSourceToNotebook nb src db = Except.ok db1
        ∧ removeSourceFromNotebook nb src db1 = Except.ok db2
        ∧ edgesLinking src nb db2 = 0 := by
  by_cases h : (db.references.filter (fun e => e.outId == src && e.inId == nb)).isEmpty = true
  · refine ⟨_, _, addSource_ok_new nb src db hnb hsrc h, removeSource_ok nb src _ hnb, ?_⟩
    show (((db.references ++ [RefEdge.mk src nb]).filter
        (fun e => !(e.outId == nb && e.inId == src))).filter
        (fun e => e.inId == src && e.outId == nb)).length = 0
    rw [filter_filter_no_edges]
    rfl
  · refine ⟨_, _, addSource_ok_dup nb src db hnb hsrc h, removeSource_ok nb src _ hnb, ?_⟩
    show ((db.references.filter
        (fun e => !(e.outId == nb && e.inId == src))).filter
        (fun e => e.inId == src && e.outId == nb)).length = 0
    rw [filter_filter_no_edges]
    rfl

/-- Concrete edge store with two pre-existing duplicate edges for the
pair, exercising the round-trip theorem. -/
def c5Db : NotebookDb :=
  ⟨["notebook:n1"], ["source:s1"],
   [⟨"source:s1", "notebook:n1"⟩, ⟨"source:s1", "notebook:n1"⟩]⟩

/-- Witness for C5 at a concrete store that already holds two duplicate
edges for the pair. -/
theorem add_remove_source_roundtrip_witness :
    ∃ db1 db2,
      addSourceToNotebook "notebook:n1" "source:s1" c5Db = Except.ok db1
        ∧ removeSourceFromNotebook "notebook:n1" "source:s1" db1 = Except.ok db2
        ∧ edgesLinking "source:s1" "notebook:n1" db2 = 0 :=
  add_remove_source_roundtrip c5Db "notebook:n1" "source:s1" (by decide) (by decide)

/-! ## C10 — session-id prefix handling -/

/-- Store with one session whose checkpointed thread exists only under
the prefixed thread id. -/
def c10Db : ChatDb :=
  { notebooks := ["notebook:n1"]
    sessions := [("chat_session:abc", { title := some "S", modelOverride := none })]
    refersTo := [("chat_session:abc", "notebook:n1")]
    checkpoints := [("chat_session:abc", ["Hello"])]
    nextId := 0 }

/-- C10 counterexample: `get_session` normalizes the id for every
database lookup but reads the LangGraph state with
`thread_id = session_id` as passed, so the unprefixed call recovers a
different (here empty) message list than the prefixed call: the two
responses differ. -/
theorem session_prefix_counterexample :
    normalizeSessionId "abc" = "chat_session:abc"
      ∧ (getSession "abc" c10Db).toOption.map SessionWithMessages.messages
          = some []
      ∧ (getSession "chat_session:abc" c10Db).toOption.map SessionWithMessages.messages
          = some ["Hello"]
      ∧ (some ([] : List String)) ≠ some ["Hello"] := by
  refine ⟨by decide, rfl, rfl, by decide⟩

/-- C10 (amended): all four endpoints prepend the `chat_session:` prefix
before every database lookup, so `update_session` and `delete_session`
behave identically on prefixed and unprefixed ids, and `execute_chat`
looks the session up under the same id either way; but `get_session`
(and likewise `execute_chat`) keys the checkpointed graph state by the
raw identifier, so the responses agree exactly on stores whose
checkpoint lookup does not distinguish the two thread ids. -/
theorem session_prefix_insensitive_lookups (sid : String)
    (newTitle newOverride : Option (Option String)) (db : ChatDb) :
    updateSession sid newTitle newOverride db
        = updateSession (normalizeSessionId sid) newTitle newOverride db
      ∧ deleteSession sid db = deleteSession (normalizeSessionId sid) db
      ∧ executeChatLookupId sid = executeChatLookupId (normalizeSessionId sid)
      ∧ (lookupStr db.checkpoints sid = lookupStr db.checkpoints (normalizeSessionId sid) →
          getSession sid db = getSession (normalizeSessionId sid) db) := by
  refine ⟨?_, ?_, ?_, ?_⟩
  · unfold updateSession
    rw [normalizeSessionId_idem]
  · unfold deleteSession
    rw [normalizeSessionId_idem]
  · unfold executeChatLookupId
    rw [normalizeSessionId_idem]
  · intro h
    unfold getSession
    rw [normalizeSessionId_idem, ← h]

/-- Store for the amended C10 witness: no checkpoints, so the raw and
normalized thread ids agree on the (missing) checkpoint entry. -/
def c10WDb : ChatDb :=
  { notebooks := []
    sessions := [("chat_session:xyz", { title := some "T", modelOverride := none })]
    refersTo := []
    checkpoints := []
    nextId := 0 }

/-- Witness for the amended C10 theorem at a concrete store. -/
theorem session_prefix_insensitive_lookups_witness :
    getSession "xyz" c10WDb = getSession "chat_session:xyz" c10WDb := by
  have h := (session_prefix_insensitive_lookups "xyz" none none c10WDb).2.2.2 (by decide)
  have e : normalizeSessionId "xyz" = "chat_session:xyz" := by decide
  rw [e] at h
  exact h

/-! ## C7 — create_session requires an existing notebook -/

/-- C7: creating a chat session fails with HTTP 404 and leaves the store
untouched when the referenced notebook does not exist; otherwise a new
session record is saved, a `refers_to` edge relates it to the notebook,
and the response carries the requested notebook id. -/
theorem create_session_notebook_association (notebookId : String)
    (title modelOverride : Option String) (db : ChatDb) (loopTime : Nat) :
    (db.notebooks.contains notebookId = false →
      createSession notebookId title modelOverride db loopTime = (Except.error 404, db))
      ∧ (db.notebooks.contains notebookId = true →
          ∃ resp db2,
            createSession notebookId title modelOverride db loopTime = (Except.ok resp, db2)
              ∧ resp.notebookId = some notebookId
              ∧ lookupStr db2.sessions resp.id ≠ none
              ∧ (resp.id, notebookId) ∈ db2.refersTo) := by
  constructor
  · intro h
    unfold createSession
    rw [if_neg (by simpa using h)]
  · intro h
    unfold createSession
    rw [if_pos h]
    refine ⟨_, _, rfl, rfl, ?_, ?_⟩
    · exact lookupStr_append_self db.sessions _ _
    · simp

/-- Store for the C7 witness: one notebook, no sessions. -/
def c7Db : ChatDb :=
  { notebooks := ["notebook:n1"], sessions := [], refersTo := [],
    checkpoints := [], nextId := 0 }

/-- Witness for C7: a missing notebook yields 404 with the store intact,
and an existing notebook yields a saved, related session. -/
theorem create_session_notebook_association_witness :
    createSession "notebook:zzz" none none c7Db 5 = (Except.error 404, c7Db)
      ∧ ∃ resp db2,
          createSession "notebook:n1" (some "My chat") none c7Db 5 = (Except.ok resp, db2)
            ∧ resp.notebookId = some "notebook:n1"
            ∧ lookupStr db2.sessions resp.id ≠ none
            ∧ (resp.id, "notebook:n1") ∈ db2.refersTo :=
  ⟨(create_session_notebook_association "notebook:zzz" none none c7Db 5).1 (by decide),
   (create_session_notebook_association "notebook:n1" (some "My chat") none c7Db 5).2 (by decide)⟩

/-! ## C3 — build_context inclusion rules -/

lemma processSource_eq_claim (db : ContextDb) (e : String × String) :
    processSource db e = claimSourceEntry db e := by
  unfold processSource claimSourceEntry
  by_cases h1 : strContains e.2 "not in" = true
  · simp [h1]
  · by_cases h2 : normalizeSourceId e.1 ∈ db.sourceIds
    · simp [h1, h2]
    · by_cases h3 : strContains e.2 "insights" = true <;>
        by_cases h4 : strContains e.2 "full content" = true <;>
        simp [h1, h2, h3, h4]

lemma processNote_eq_claim (db : ContextDb) (e : String × String) :
    processNote db e = claimNoteEntry db e := by
  unfold processNote claimNoteEntry
  by_cases h1 : strContains e.2 "not in" = true
  · simp [h1]
  · by_cases h2 : normalizeNoteId e.1 ∈ db.noteIds
    · simp [h1, h2]
    · by_cases h4 : strContains e.2 "full content" = true <;> simp [h1, h2, h4]

/-- C3: for a `build_context` request with a (truthy) context
configuration, the returned context is exactly the configured entries
filtered and levelled by the claim rules — an entry whose status
contains `"not in"` contributes nothing, a source whose status contains
`"insights"` is included with short context, a source whose status
contains `"full content"` (and not `"insights"`) with long context, a
note only when its status contains `"full content"`, with long context —
in configuration order; with no (or a falsy) configuration, every source
and note of the notebook is included with short context. -/
theorem build_context_inclusion (cfg : ContextConfigL) (db : ContextDb) :
    buildContext (some cfg) db
        = (cfg.sources.filterMap (claimSourceEntry db),
           cfg.notes.filterMap (claimNoteEntry db))
      ∧ buildContext none db
          = (db.notebookSources.map (fun s => (s, CtxSize.short)),
             db.notebookNotes.map (fun n => (n, CtxSize.short))) := by
  constructor
  · simp only [buildContext]
    rw [foldl_filterMap, foldl_filterMap, List.nil_append, List.nil_append]
    rw [List.filterMap_congr (fun e _ => processSource_eq_claim db e),
        List.filterMap_congr (fun e _ => processNote_eq_claim db e)]
  · rfl

/-! ## C2 — system-prompt assembly from the custom-prompt branch -/

lemma sourceHeader_ne_empty (ic : Bool) (s : SourceCtx) : sourceHeader ic s ≠ "" := by
  unfold sourceHeader
  cases ic
  · simp only [Bool.false_eq_true, if_false]
    repeat apply append_ne_empty_left
    decide
  · simp only [if_true]
    repeat apply append_ne_empty_left
    decide

lemma sourceSection_ne_empty (ic : Bool) (s : SourceCtx) : sourceSection ic s ≠ "" := by
  unfold sourceSection
  exact append_ne_empty_left _ _ (append_ne_empty_left _ _ (sourceHeader_ne_empty ic s))

lemma noteSection_ne_empty (ic : Bool) (n : NoteCtx) : noteSection ic n ≠ "" := by
  unfold noteSection
  cases ic
  · simp only [Bool.false_eq_true, if_false]
    repeat apply append_ne_empty_left
    decide
  · simp only [if_true]
    repeat apply append_ne_empty_left
    decide

/-- The loop-built `context_str` equals the joined per-source sections
followed by the joined per-note sections. -/
lemma contextStr_eq (ic : Bool) (ctx : Option CtxData) :
    contextStr ic ctx
      = String.join ((ctxSources ctx).map (sourceSection ic))
          ++ String.join ((ctxNotes ctx).map (noteSection ic)) := by
  unfold contextStr
  rw [foldl_section, foldl_section, String.empty_append]

lemma contextStr_ne_empty (ic : Bool) (ctx : Option CtxData)
    (h : ctxSources ctx ≠ [] ∨ ctxNotes ctx ≠ []) : contextStr ic ctx ≠ "" := by
  rw [contextStr_eq]
  rcases h with h | h
  · cases hs : ctxSources ctx with
    | nil => exact absurd hs h
    | cons x xs =>
      rw [List.map_cons, join_cons, String.append_assoc]
      exact append_ne_empty_left _ _ (sourceSection_ne_empty ic x)
  · cases hn : ctxNotes ctx with
    | nil => exact absurd hn h
    | cons x xs =>
      rw [List.map_cons, join_cons]
      intro he
      apply noteSection_ne_empty ic x
      have hd : (String.join ((ctxSources ctx).map (sourceSection ic))
          ++ (noteSection ic x ++ String.join (xs.map (noteSection ic)))).data = [] := by
        rw [he]
      rw [String.data_append, String.data_append] at hd
      have h2 := (List.append_eq_nil.mp (List.append_eq_nil.mp hd).2).1
      cases hx : noteSection ic x
      simp_all

/-- C2: with a non-empty custom system prompt and at least one source or
note in the context, the system message is the custom prompt, the role
reminder, the context header, one section per source in order (title
header, full text when present, insights with type and content), then one
section per note, then the citing instructions exactly when citations are
enabled; with an empty context it is the custom prompt plus the
role-reminder sentence only. -/
theorem system_prompt_assembly (prompterRender cp : String) (st : ThreadState)
    (hcp : st.customSystemPrompt = some cp) (hne : cp ≠ "") :
    ((ctxSources st.context ≠ [] ∨ ctxNotes st.context ≠ []) →
      callModelSystemPrompt prompterRender st
        = cp ++ roleReminder ++ "\n\n# Context Information\n"
            ++ String.join ((ctxSources st.context).map (sourceSection (st.includeCitations.getD true)))
            ++ String.join ((ctxNotes st.context).map (noteSection (st.includeCitations.getD true)))
            ++ "\n"
            ++ (if st.includeCitations.getD true then citingInstructions else ""))
      ∧ (ctxSources st.context = [] → ctxNotes st.context = [] →
          callModelSystemPrompt prompterRender st = cp ++ roleReminder) := by
  have hpt : pytruthy st.customSystemPrompt = true := by
    rw [hcp]
    simpa [pytruthy] using hne
  have hgd : st.customSystemPrompt.getD "" = cp := by rw [hcp]; rfl
  constructor
  · intro hctx
    have hcs : (contextStr (st.includeCitations.getD true) st.context != "") = true :=
      bne_iff_ne.mpr (contextStr_ne_empty _ _ hctx)
    unfold callModelSystemPrompt
    rw [if_pos hpt, if_pos hcs, hgd, contextStr_eq]
    simp only [String.append_assoc]
  · intro hs hn
    have hcs : contextStr (st.includeCitations.getD true) st.context = "" := by
      rw [contextStr_eq, hs, hn]
      rfl
    unfold callModelSystemPrompt
    rw [if_pos hpt, if_neg (by simp [hcs]), hgd]

/-- Thread state for the C2 witness: one source with full text and one
insight, one note, citations enabled. -/
def c2State : ThreadState :=
  { context := some
      { sources := some
          [{ id := some "source:s1", title := some "Doc One",
             fullText := some "Alpha beta.",
             insights := some
               [{ id := some "source_insight:i1", insightType := some "Summary",
                  content := some "Gist." }] }]
        notes := some
          [{ id := some "note:n1", title := some "Note One",
             content := some "Remember." }] }
    modelOverride := none
    customSystemPrompt := some "You are a librarian."
    includeCitations := some true }

/-- Witness for C2 at a concrete thread state. -/
theorem system_prompt_assembly_witness :
    callModelSystemPrompt "RENDERED" c2State
      = "You are a librarian." ++ roleReminder ++ "\n\n# Context Information\n"
          ++ String.join ((ctxSources c2State.context).map (sourceSection true))
          ++ String.join ((ctxNotes c2State.context).map (noteSection true))
          ++ "\n" ++ citingInstructions := by
  have h := (system_prompt_assembly "RENDERED" "You are a librarian." c2State rfl
    (by decide)).1 (Or.inl (by decide))
  simpa using h

/-! ## C8 — custom-system-prompt resolution priority -/

lemma pytruthy_none : pytruthy none = false := rfl

lemma pytruthy_some (s : String) : pytruthy (some s) = (s != "") := rfl

/-- Environment exhibiting the empty-content fall-through: the requested
prompt loads successfully but with empty content, and the notebook has an
active prompt with non-empty content. -/
def c8Env : PromptEnv :=
  { promptTable := fun pid => if pid == "system_prompt:p1" then some "" else none
    activePromptId := some "system_prompt:p2"
    activePromptContent := some "You are the active prompt."
    legacyCustomPrompt := none }

/-- C8 counterexample: when the prompt named by the request loads
successfully but has empty content, the code falls through to the active
prompt (the `if not custom_system_prompt` guards test Python truthiness,
not assignment), whereas the claimed strict load-success priority would
stop at the requested prompt's (empty) content. -/
theorem prompt_priority_counterexample :
    resolveCustomSystemPrompt (some "system_prompt:p1") c8Env
        = some "You are the active prompt."
      ∧ claimPromptChain (some "system_prompt:p1") c8Env = some ""
      ∧ resolveCustomSystemPrompt (some "system_prompt:p1") c8Env
          ≠ claimPromptChain (some "system_prompt:p1") c8Env := by
  refine ⟨rfl, rfl, ?_⟩
  decide

/-- C8 (amended): up to the downstream treatment of a falsy prompt (the
graph's `if custom_prompt:` treats `None` and `""` alike), the resolution
is a strict priority over the tiers with *non-empty* content: the
requested prompt's content when it loads with non-empty content,
otherwise the active prompt's content when `active_prompt_id` is set and
resolves with non-empty content, otherwise the legacy field when
non-empty, otherwise no custom prompt. -/
theorem prompt_priority_amended (reqPromptId : Option String) (env : PromptEnv) :
    pyEffectivePrompt (resolveCustomSystemPrompt reqPromptId env)
      = amendedPromptChain reqPromptId env := by
  unfold resolveCustomSystemPrompt amendedPromptChain
  by_cases hreq : pytruthy reqPromptId = true <;>
    by_cases hap : pytruthy env.activePromptId = true <;>
      by_cases hl : pytruthy env.legacyCustomPrompt = true <;>
        by_cases hcb : pytruthy (env.promptTable (reqPromptId.getD "")) = true <;>
          by_cases hcb2 : pytruthy env.activePromptContent = true <;>
            rcases hpt : env.promptTable (reqPromptId.getD "") with _ | c <;>
              rcases hac : env.activePromptContent with _ | c2 <;>
                simp_all [pytruthy_some, pytruthy_none, pyEffectivePrompt]

end OpenNotebook
